import Mathlib

/-
Verification of the chromatic-aberration scroll effect in
src/src/chromatic-abberation/chromatic-abberation.tsx.

The file contains two `ImageWithEffect` variants:
- variant 1 (lines 681-862): mobile-aware thresholds and time-scaled damping;
- variant 2 (lines 1190-1332): fixed thresholds, constant damping, and a
  one-second watchdog that can force a hard reset.

Scroll offsets, strengths and directions are modelled as rationals; the
time-scaled damping factor `1 - (1-k)^(delta*60)` of variant 1 involves a real
power and is modelled over the reals further below.
-/

/-- THREE.Vector2 with rational components. -/
structure Vec2 where
  x : ℚ
  y : ℚ
deriving DecidableEq

/-- THREE.MathUtils.lerp: `x + (y - x) * t`. -/
def lerp (a b t : ℚ) : ℚ := a + (b - a) * t

/-- THREE.Vector2.lerp: componentwise `x + (y - x) * t` toward the argument
vector. -/
def Vec2.lerp (v w : Vec2) (t : ℚ) : Vec2 :=
  ⟨v.x + (w.x - v.x) * t, v.y + (w.y - v.y) * t⟩

/-- Math.sign. -/
def mathSign (q : ℚ) : ℚ := if 0 < q then 1 else if q < 0 then -1 else 0

/-- The mutable refs of one `ImageWithEffect` item (lines 692-699 resp.
1201-1208): scrolling flag, target/current strength, target/current direction,
last scroll offset, pending debounce timeout (in ms), force-reset flag. -/
structure AberrationState where
  isScrolling : Bool
  targetAberrationStrength : ℚ
  currentAberrationStrength : ℚ
  targetDirection : Vec2
  currentDirection : Vec2
  lastScrollY : ℚ
  scrollTimer : Option ℚ
  forceReset : Bool
deriving DecidableEq

/-- Initial ref values: strengths 0, directions (0,0), not scrolling, no
pending timer, no force reset; `lastScrollY` starts at the page offset. -/
def initState (y0 : ℚ) : AberrationState :=
  { isScrolling := false
    targetAberrationStrength := 0
    currentAberrationStrength := 0
    targetDirection := ⟨0, 0⟩
    currentDirection := ⟨0, 0⟩
    lastScrollY := y0
    scrollTimer := none
    forceReset := false }

/-- The `handleScroll` of variant 1 (lines 714-763): updates `lastScrollY`, ignores
deltas below 0.1, otherwise sets target direction `(0, min(1,|d|/(15|30)) * sign d)`,
target strength `min(1,|d|/(12|25)) * maxAberration`, marks scrolling, clears
the force-reset flag and (re)schedules a 250ms (mobile) / 200ms timeout. -/
def handleScroll1 (mobile : Bool) (maxAberration : ℚ) (s : AberrationState)
    (currentScrollY : ℚ) : AberrationState :=
  let delta := currentScrollY - s.lastScrollY
  let s1 := { s with lastScrollY := currentScrollY }
  if |delta| < 1/10 then s1
  else
    let normalizedDelta := min 1 (|delta| / (if mobile then 15 else 30))
    let speedFactor := min 1 (|delta| / (if mobile then 12 else 25))
    { s1 with
      targetDirection := ⟨0, normalizedDelta * mathSign delta⟩
      targetAberrationStrength := speedFactor * maxAberration
      isScrolling := true
      forceReset := false
      scrollTimer := some (if mobile then 250 else 200) }

/-- Body of variant 1's debounce timeout (lines 752-759): stop scrolling and
set the target strength to 0, leaving the current values untouched. -/
def timerFire1 (s : AberrationState) : AberrationState :=
  { s with isScrolling := false, targetAberrationStrength := 0, scrollTimer := none }

/-- One `useFrame` tick of variant 1 (lines 782-845). The time-scaled damping
factors `1 - (1-k)^(delta*60)` for strength and direction are received as the
parameters `d` and `ddir` (see `scaledDamping` below for the real-valued
formula). In the force-reset branch the strength and direction are lerped
toward zero with damping 0.4 (mobile) / 0.25 and snapped once below 0.0005;
otherwise strength is lerped toward its target, snapped to 0 when below
0.0005, and direction is lerped toward its target. -/
def frameStep1 (mobile : Bool) (d ddir : ℚ) (s : AberrationState) : AberrationState :=
  if s.forceReset then
    let resetDamping : ℚ := if mobile then 2/5 else 1/4
    let c := lerp s.currentAberrationStrength 0 resetDamping
    let dir := s.currentDirection.lerp ⟨0, 0⟩ resetDamping
    if c < 1/2000 then
      { s with currentAberrationStrength := 0, currentDirection := ⟨0, 0⟩, forceReset := false }
    else
      { s with currentAberrationStrength := c, currentDirection := dir }
  else
    let c := lerp s.currentAberrationStrength s.targetAberrationStrength d
    let c2 := if c < 1/2000 then 0 else c
    let dir := s.currentDirection.lerp s.targetDirection ddir
    { s with currentAberrationStrength := c2, currentDirection := dir }

/-- The `handleScroll` of variant 2 (lines 1224-1266): updates `lastScrollY`,
ignores deltas below 0.5, otherwise sets target direction `(0, sign delta)`,
target strength `min(1,|delta|/20) * maxAberration`, marks scrolling, clears
force reset and (re)schedules a 200ms timeout. -/
def handleScroll2 (maxAberration : ℚ) (s : AberrationState)
    (currentScrollY : ℚ) : AberrationState :=
  let delta := currentScrollY - s.lastScrollY
  let s1 := { s with lastScrollY := currentScrollY }
  if |delta| < 1/2 then s1
  else
    { s1 with
      targetDirection := ⟨0, mathSign delta⟩
      targetAberrationStrength := min 1 (|delta| / 20) * maxAberration
      isScrolling := true
      forceReset := false
      scrollTimer := some 200 }

/-- Body of variant 2's debounce timeout (lines 1250-1253): stop scrolling and
set the target strength to 0 (the current values are left to decay). -/
def timerFire2 (s : AberrationState) : AberrationState :=
  { s with isScrolling := false, targetAberrationStrength := 0, scrollTimer := none }

/-- Variant 2's inner watchdog timeout (lines 1256-1264), checked 1000ms after
the debounce fired: sets the force-reset flag exactly when the current
strength is strictly between 0 and 0.05. -/
def watchdogFire2 (s : AberrationState) : AberrationState :=
  if 0 < s.currentAberrationStrength ∧ s.currentAberrationStrength < 1/20 then
    { s with forceReset := true }
  else s

/-- One `useFrame` tick of variant 2 (lines 1279-1324): damping 0.15 while
scrolling, 0.08 otherwise; a pending force reset zeroes strength and direction
outright; otherwise strength is lerped toward its target and snapped to 0
below 0.001, and direction is lerped toward its target with damping 0.2. -/
def frameStep2 (s : AberrationState) : AberrationState :=
  let strengthDamping : ℚ := if s.isScrolling then 3/20 else 2/25
  if s.forceReset then
    { s with currentAberrationStrength := 0, currentDirection := ⟨0, 0⟩, forceReset := false }
  else
    let c := lerp s.currentAberrationStrength s.targetAberrationStrength strengthDamping
    let c2 := if c < 1/1000 then 0 else c
    let dir := s.currentDirection.lerp s.targetDirection (1/5)
    { s with currentAberrationStrength := c2, currentDirection := dir }

/-- Events observable by one variant-1 item: a scroll (carrying the new page
offset), the debounce timeout firing, or a frame tick (carrying the two
time-scaled damping factors computed from the frame delta). -/
inductive Event1 where
  | scroll (y : ℚ)
  | timerFire
  | frame (d ddir : ℚ)

/-- A frame event's strength damping factor lies in (0,1); other events carry
no numeric constraint. -/
def EventOk : Event1 → Prop
  | .frame d _ => 0 < d ∧ d < 1
  | _ => True

/-- Dispatch one event to the variant-1 handlers. -/
def step1 (mobile : Bool) (maxA : ℚ) (s : AberrationState) : Event1 → AberrationState
  | .scroll y => handleScroll1 mobile maxA s y
  | .timerFire => timerFire1 s
  | .frame d ddir => frameStep1 mobile d ddir s

/-- Run a sequence of events from a state. -/
def run1 (mobile : Bool) (maxA : ℚ) (s : AberrationState) (es : List Event1) :
    AberrationState :=
  es.foldl (step1 mobile maxA) s

/-- Variant 1's time-scaled damping factor (line 810 and 826-827):
`1 - (1-k)^(delta*60)` where `k` is the per-60fps-frame damping rate and
`delta` the elapsed seconds since the previous frame. -/
noncomputable def scaledDamping (k delta : ℝ) : ℝ := 1 - (1 - k) ^ (delta * 60)

/-- One smoothing step of variant 1's strength lerp (lines 813-817) over the
reals: lerp the current value toward the target by the time-scaled damping
factor for a frame of `delta` seconds. -/
noncomputable def smoothStep (k target current delta : ℝ) : ℝ :=
  current + (target - current) * scaledDamping k delta

/-- World x-coordinate of a DOM rectangle's center (lines 903-904 resp.
1376-1378): `((left + width/2) / innerWidth) * viewportWidth - viewportWidth/2`. -/
def worldX (innerWidth viewportWidth left width : ℚ) : ℚ :=
  ((left + width / 2) / innerWidth) * viewportWidth - viewportWidth / 2

/-- World y-coordinate of a DOM rectangle's center (lines 906-911 resp.
1379-1384): `-(((top + height/2) / innerHeight) * viewportHeight) + viewportHeight/2`;
the DOM's downward axis is inverted. -/
def worldY (innerHeight viewportHeight top height : ℚ) : ℚ :=
  -(((top + height / 2) / innerHeight) * viewportHeight) + viewportHeight / 2

/-- Modelled from the spec: the inverse of `worldX` ("scaling by
window/viewport ratio"), recovering the on-screen center x from a world x. -/
def screenCenterX (innerWidth viewportWidth wx : ℚ) : ℚ :=
  ((wx + viewportWidth / 2) / viewportWidth) * innerWidth

/-- Modelled from the spec: the inverse of `worldY` ("re-inverting y"),
recovering the on-screen center y from a world y. -/
def screenCenterY (innerHeight viewportHeight wy : ℚ) : ℚ :=
  ((viewportHeight / 2 - wy) / viewportHeight) * innerHeight

/-- A DOM image element, reduced to the state the effect mutates: its inline
opacity style and the `data-chromatic-id` attribute. -/
structure DomImage where
  opacity : String
  chromaticId : Option String
deriving DecidableEq

/-- The DOM state owned by the `ChromaticImages` component (lines 481-543):
the discovered images and whether the intersection observer is connected. -/
structure ChromaticState where
  imgs : List DomImage
  observerConnected : Bool
deriving DecidableEq

/-- The `ChromaticImages` setup (lines 502-534): each discovered image gets a
stable identifier `chromatic-image-<index>`, is observed, and has its inline
opacity set to "0". -/
def chromaticSetup (s : ChromaticState) : ChromaticState :=
  { imgs := s.imgs.enum.map fun p =>
      { p.2 with opacity := "0", chromaticId := some ("chromatic-image-" ++ toString p.1) }
    observerConnected := true }

/-- The `ChromaticImages` cleanup (lines 536-542): disconnect the observer, clear
each image's inline opacity (back to the stylesheet value) and delete its
identifier. -/
def chromaticCleanup (s : ChromaticState) : ChromaticState :=
  { imgs := s.imgs.map fun img => { img with opacity := "", chromaticId := none }
    observerConnected := false }

/-- The DOM state owned by the `ShaderEffectOverlay` component (lines 865-928):
the discovered images and whether the window resize listener is attached. -/
structure OverlayState where
  imgs : List DomImage
  resizeListenerAttached : Bool
deriving DecidableEq

/-- The `ShaderEffectOverlay` setup (lines 873-928): attach the resize listener
and run `setupImages`, which sets each discovered image's inline opacity to
"0" (no identifier is assigned in this variant). -/
def overlaySetup (s : OverlayState) : OverlayState :=
  { imgs := s.imgs.map fun img => { img with opacity := "0" }
    resizeListenerAttached := true }

/-- The `ShaderEffectOverlay` cleanup (lines 882-886): detach the resize listener.
Nothing else is undone: image opacity stays as `setupImages` left it. -/
def overlayCleanup (s : OverlayState) : OverlayState :=
  { s with resizeListenerAttached := false }

/-- A state stalled at strength 0.01 with no pending force reset. -/
def stalledState : AberrationState :=
  { initState 0 with currentAberrationStrength := 1/100 }

/-- The same stalled state after the watchdog has requested a force reset. -/
def stalledResetState : AberrationState :=
  { initState 0 with currentAberrationStrength := 1/100, forceReset := true }

/-- A variant-1 state at strength exactly 0 whose target was set by a slow
scroll to `t`; no reset pending. -/
def slowScrollState (t : ℚ) : AberrationState :=
  { initState 0 with targetAberrationStrength := t }

/-- The strength part of the data-model invariant: current and target
aberration strength lie in `[0, maxA]`. -/
def StrengthInv (maxA : ℚ) (s : AberrationState) : Prop :=
  0 ≤ s.currentAberrationStrength ∧ s.currentAberrationStrength ≤ maxA ∧
  0 ≤ s.targetAberrationStrength ∧ s.targetAberrationStrength ≤ maxA

/-- A decayed variant-2 state: target 0 after the debounce fired, current
strength still 1/10. -/
def decayingState : AberrationState :=
  { initState 0 with currentAberrationStrength := 1/10 }

/-- A one-image DOM as the `ShaderEffectOverlay` variant finds it: inline
opacity "1", no identifier, resize listener not yet attached. -/
def exampleOverlay : OverlayState :=
  { imgs := [{ opacity := "1", chromaticId := none }], resizeListenerAttached := false }

/-- C3: a +40px scroll delta on desktop (scale constant 25) with
maxAberration = 2 sets the target strength to exactly 2 and the target
direction to (0, 1). -/
theorem C3_scroll_scenario :
    (handleScroll1 false 2 (initState 0) 40).targetAberrationStrength = 2 ∧
    (handleScroll1 false 2 (initState 0) 40).targetDirection = ⟨0, 1⟩ := by
  norm_num [handleScroll1, initState, mathSign, abs]

/-- C5: a scroll event whose delta is below the noise threshold (0.1 in
variant 1, 0.5 in variant 2) leaves the target strength, target direction,
scrolling flag and debounce timer unchanged. -/
theorem C5_subthreshold_noop (mobile : Bool) (maxA : ℚ) (s : AberrationState) (y : ℚ) :
    (|y - s.lastScrollY| < 1/10 →
      (handleScroll1 mobile maxA s y).targetAberrationStrength = s.targetAberrationStrength ∧
      (handleScroll1 mobile maxA s y).targetDirection = s.targetDirection ∧
      (handleScroll1 mobile maxA s y).isScrolling = s.isScrolling ∧
      (handleScroll1 mobile maxA s y).scrollTimer = s.scrollTimer) ∧
    (|y - s.lastScrollY| < 1/2 →
      (handleScroll2 maxA s y).targetAberrationStrength = s.targetAberrationStrength ∧
      (handleScroll2 maxA s y).targetDirection = s.targetDirection ∧
      (handleScroll2 maxA s y).isScrolling = s.isScrolling ∧
      (handleScroll2 maxA s y).scrollTimer = s.scrollTimer) := by
  constructor
  · intro h
    simp only [handleScroll1]
    rw [if_pos h]
    exact ⟨rfl, rfl, rfl, rfl⟩
  · intro h
    simp only [handleScroll2]
    rw [if_pos h]
    exact ⟨rfl, rfl, rfl, rfl⟩

/-- C5 witness: a 0.05px delta is ignored by both scroll handlers. -/
theorem C5_subthreshold_noop_witness :
    (handleScroll1 false 2 (initState 0) (1/20)).targetAberrationStrength =
      (initState 0).targetAberrationStrength ∧
    (handleScroll2 2 (initState 0) (1/20)).targetAberrationStrength =
      (initState 0).targetAberrationStrength := by
  have h := C5_subthreshold_noop false 2 (initState 0) (1/20)
  exact ⟨(h.1 (by norm_num [initState, abs])).1, (h.2 (by norm_num [initState, abs])).1⟩

/-- C6: an above-threshold scroll event marks the scrolling flag and schedules
a debounce timeout of 200ms (250ms on mobile in variant 1, always 200ms in
variant 2); when the timeout fires, the scrolling flag becomes false and the
target strength 0, while the current strength is left unchanged. -/
theorem C6_debounce (mobile : Bool) (maxA : ℚ) (s : AberrationState) (y : ℚ) :
    (1/10 ≤ |y - s.lastScrollY| →
      (handleScroll1 mobile maxA s y).isScrolling = true ∧
      (handleScroll1 mobile maxA s y).scrollTimer = some (if mobile then 250 else 200)) ∧
    (1/2 ≤ |y - s.lastScrollY| →
      (handleScroll2 maxA s y).isScrolling = true ∧
      (handleScroll2 maxA s y).scrollTimer = some 200) ∧
    ((timerFire1 s).isScrolling = false ∧
      (timerFire1 s).targetAberrationStrength = 0 ∧
      (timerFire1 s).currentAberrationStrength = s.currentAberrationStrength) ∧
    ((timerFire2 s).isScrolling = false ∧
      (timerFire2 s).targetAberrationStrength = 0 ∧
      (timerFire2 s).currentAberrationStrength = s.currentAberrationStrength) := by
  refine ⟨fun h => ?_, fun h => ?_, ?_, ?_⟩
  · simp only [handleScroll1]
    rw [if_neg (not_lt.mpr h)]
    exact ⟨rfl, rfl⟩
  · simp only [handleScroll2]
    rw [if_neg (not_lt.mpr h)]
    exact ⟨rfl, rfl⟩
  · exact ⟨rfl, rfl, rfl⟩
  · exact ⟨rfl, rfl, rfl⟩

/-- C6 witness: a 40px delta schedules the debounce in both variants and its
expiry stops the effect. -/
theorem C6_debounce_witness :
    (handleScroll1 false 2 (initState 0) 40).isScrolling = true ∧
    (handleScroll2 2 (initState 0) 40).scrollTimer = some 200 ∧
    (timerFire1 (initState 0)).isScrolling = false := by
  have h := C6_debounce false 2 (initState 0) 40
  exact ⟨(h.1 (by norm_num [initState])).1, (h.2.1 (by norm_num [initState])).2, h.2.2.1.1⟩

/-- C9: variant 2's watchdog sets the force-reset flag exactly when the
current strength is strictly between 0 and 0.05; a frame update on a state
with the flag set zeroes strength and direction instead of smoothing. -/
theorem C9_watchdog_reset (s s2 : AberrationState) (h : s.forceReset = false)
    (h2 : s2.forceReset = true) :
    ((watchdogFire2 s).forceReset = true ↔
      (0 < s.currentAberrationStrength ∧ s.currentAberrationStrength < 1/20)) ∧
    (frameStep2 s2).currentAberrationStrength = 0 ∧
    (frameStep2 s2).currentDirection = ⟨0, 0⟩ := by
  refine ⟨?_, ?_, ?_⟩
  · unfold watchdogFire2
    split_ifs with hc
    · exact iff_of_true rfl hc
    · exact iff_of_false (by simp [h]) hc
  · simp only [frameStep2]
    rw [if_pos h2]
  · simp only [frameStep2]
    rw [if_pos h2]

/-- C9 witness: at strength 0.01 the watchdog fires and the next frame resets
the strength to 0. -/
theorem C9_watchdog_reset_witness :
    (watchdogFire2 stalledState).forceReset = true ∧
    (frameStep2 stalledResetState).currentAberrationStrength = 0 := by
  have h := C9_watchdog_reset stalledState stalledResetState rfl rfl
  exact ⟨h.1.mpr (by norm_num [stalledState, initState]), h.2.1⟩

/-- C10: because the snap-to-zero check runs after every smoothing step
regardless of the target, a target strength `t` whose lerp increment `t * d`
lies strictly between 0 and the 0.0005 epsilon can never move the current
strength off exactly 0: every number of frames later it is still 0. -/
theorem C10_zero_absorbing (t d ddir : ℚ) (_h0 : 0 < t * d) (h1 : t * d < 1/2000) :
    ∀ n : ℕ,
      ((frameStep1 false d ddir)^[n] (slowScrollState t)).currentAberrationStrength = 0 := by
  have key : ∀ s : AberrationState, s.currentAberrationStrength = 0 →
      s.targetAberrationStrength = t → s.forceReset = false →
      (frameStep1 false d ddir s).currentAberrationStrength = 0 ∧
      (frameStep1 false d ddir s).targetAberrationStrength = t ∧
      (frameStep1 false d ddir s).forceReset = false := by
    intro s hc ht hf
    have hlt : lerp s.currentAberrationStrength s.targetAberrationStrength d < 1/2000 := by
      rw [hc, ht]
      unfold lerp
      linarith
    simp only [frameStep1]
    rw [if_neg (by simp [hf]), if_pos hlt]
    exact ⟨rfl, ht, hf⟩
  have main : ∀ n : ℕ,
      ((frameStep1 false d ddir)^[n] (slowScrollState t)).currentAberrationStrength = 0 ∧
      ((frameStep1 false d ddir)^[n] (slowScrollState t)).targetAberrationStrength = t ∧
      ((frameStep1 false d ddir)^[n] (slowScrollState t)).forceReset = false := by
    intro n
    induction n with
    | zero => simp [slowScrollState, initState]
    | succ n ih =>
      rw [Function.iterate_succ_apply']
      exact key _ ih.1 ih.2.1 ih.2.2
  exact fun n => (main n).1

/-- C10 witness: with target 0.002 and desktop damping 0.15 the increment is
0.0003 < 0.0005, so after three frames the strength is still exactly 0. -/
theorem C10_zero_absorbing_witness :
    ((frameStep1 false (3/20) (3/20))^[3]
      (slowScrollState (1/500))).currentAberrationStrength = 0 :=
  C10_zero_absorbing (1/500) (3/20) (3/20) (by norm_num) (by norm_num) 3

/-- One snap-lerp toward 0 from a non-negative value with damping factor in
[0,1] stays non-negative, does not increase, and never lands in (0, eps). -/
theorem snapLerp_decay (cur rd eps : ℚ) (hC : 0 ≤ cur) (h0 : 0 ≤ rd) (h1 : rd ≤ 1) :
    0 ≤ (if cur + (0 - cur) * rd < eps then 0 else cur + (0 - cur) * rd) ∧
    (if cur + (0 - cur) * rd < eps then 0 else cur + (0 - cur) * rd) ≤ cur ∧
    ((if cur + (0 - cur) * rd < eps then 0 else cur + (0 - cur) * rd) < eps →
      (if cur + (0 - cur) * rd < eps then 0 else cur + (0 - cur) * rd) = 0) := by
  split_ifs with hs
  · exact ⟨le_refl 0, hC, fun _ => rfl⟩
  · exact ⟨by nlinarith, by nlinarith, fun h => absurd h hs⟩

/-- With target 0, a variant-1 frame step decays the strength monotonically,
never below 0, never into (0, 0.0005), and keeps the target at 0. -/
theorem frameStep1_decay (mobile : Bool) (s : AberrationState) (d ddir : ℚ)
    (hT : s.targetAberrationStrength = 0) (hC : 0 ≤ s.currentAberrationStrength)
    (hd0 : 0 ≤ d) (hd1 : d ≤ 1) :
    0 ≤ (frameStep1 mobile d ddir s).currentAberrationStrength ∧
    (frameStep1 mobile d ddir s).currentAberrationStrength ≤ s.currentAberrationStrength ∧
    ((frameStep1 mobile d ddir s).currentAberrationStrength < 1/2000 →
      (frameStep1 mobile d ddir s).currentAberrationStrength = 0) ∧
    (frameStep1 mobile d ddir s).targetAberrationStrength = 0 := by
  by_cases hf : s.forceReset = true
  · simp only [frameStep1, lerp]
    rw [if_pos hf]
    rw [apply_ite AberrationState.currentAberrationStrength,
        apply_ite AberrationState.targetAberrationStrength]
    dsimp only
    rw [ite_self]
    have hrd0 : (0:ℚ) ≤ if mobile then 2/5 else 1/4 := by split_ifs <;> norm_num
    have hrd1 : (if mobile then (2:ℚ)/5 else 1/4) ≤ 1 := by split_ifs <;> norm_num
    have h := snapLerp_decay s.currentAberrationStrength
      (if mobile then 2/5 else 1/4) (1/2000) hC hrd0 hrd1
    exact ⟨h.1, h.2.1, h.2.2, hT⟩
  · simp only [frameStep1, lerp]
    rw [if_neg hf]
    dsimp only
    rw [hT]
    have h := snapLerp_decay s.currentAberrationStrength d (1/2000) hC hd0 hd1
    exact ⟨h.1, h.2.1, h.2.2, rfl⟩

/-- With target 0, a variant-2 frame step decays the strength monotonically,
never below 0, never into (0, 0.001), and keeps the target at 0. -/
theorem frameStep2_decay (s : AberrationState)
    (hT : s.targetAberrationStrength = 0) (hC : 0 ≤ s.currentAberrationStrength) :
    0 ≤ (frameStep2 s).currentAberrationStrength ∧
    (frameStep2 s).currentAberrationStrength ≤ s.currentAberrationStrength ∧
    ((frameStep2 s).currentAberrationStrength < 1/1000 →
      (frameStep2 s).currentAberrationStrength = 0) ∧
    (frameStep2 s).targetAberrationStrength = 0 := by
  by_cases hf : s.forceReset = true
  · simp only [frameStep2]
    rw [if_pos hf]
    exact ⟨le_refl 0, hC, fun _ => rfl, hT⟩
  · simp only [frameStep2, lerp]
    rw [if_neg hf]
    dsimp only
    rw [hT]
    have hk0 : (0:ℚ) ≤ if s.isScrolling then 3/20 else 2/25 := by split_ifs <;> norm_num
    have hk1 : (if s.isScrolling then (3:ℚ)/20 else 2/25) ≤ 1 := by split_ifs <;> norm_num
    have h := snapLerp_decay s.currentAberrationStrength
      (if s.isScrolling then 3/20 else 2/25) (1/1000) hC hk0 hk1
    exact ⟨h.1, h.2.1, h.2.2, rfl⟩

/-- C4: once the debounce has set the target strength to 0, every frame step
of either variant produces a non-negative current strength that never exceeds
the previous one, snaps to exactly 0 once below the variant's epsilon (0.0005
resp. 0.001), and leaves the target at 0, so the same holds on every
subsequent frame. -/
theorem C4_monotone_decay (mobile : Bool) (s : AberrationState) (d ddir : ℚ)
    (hT : s.targetAberrationStrength = 0) (hC : 0 ≤ s.currentAberrationStrength)
    (hd0 : 0 ≤ d) (hd1 : d ≤ 1) :
    (0 ≤ (frameStep1 mobile d ddir s).currentAberrationStrength ∧
      (frameStep1 mobile d ddir s).currentAberrationStrength ≤ s.currentAberrationStrength ∧
      ((frameStep1 mobile d ddir s).currentAberrationStrength < 1/2000 →
        (frameStep1 mobile d ddir s).currentAberrationStrength = 0) ∧
      (frameStep1 mobile d ddir s).targetAberrationStrength = 0) ∧
    (0 ≤ (frameStep2 s).currentAberrationStrength ∧
      (frameStep2 s).currentAberrationStrength ≤ s.currentAberrationStrength ∧
      ((frameStep2 s).currentAberrationStrength < 1/1000 →
        (frameStep2 s).currentAberrationStrength = 0) ∧
      (frameStep2 s).targetAberrationStrength = 0) :=
  ⟨frameStep1_decay mobile s d ddir hT hC hd0 hd1, frameStep2_decay s hT hC⟩

/-- C4 witness: from strength 0.1 with target 0, the next frame of either
variant keeps the strength in [0, 0.1]. -/
theorem C4_monotone_decay_witness :
    0 ≤ (frameStep1 false (3/20) (3/20) decayingState).currentAberrationStrength ∧
    (frameStep1 false (3/20) (3/20) decayingState).currentAberrationStrength ≤
      decayingState.currentAberrationStrength ∧
    0 ≤ (frameStep2 decayingState).currentAberrationStrength ∧
    (frameStep2 decayingState).currentAberrationStrength ≤
      decayingState.currentAberrationStrength := by
  have h := C4_monotone_decay false decayingState (3/20) (3/20) rfl
    (by norm_num [decayingState, initState]) (by norm_num) (by norm_num)
  exact ⟨h.1.1, h.1.2.1, h.2.1, h.2.2.1⟩

/-- A lerp between two values of `[lo, hi]` with factor in [0,1] stays in
`[lo, hi]`. -/
theorem lerp_bounds (a b t lo hi : ℚ) (ha : lo ≤ a) (ha2 : a ≤ hi)
    (hb : lo ≤ b) (hb2 : b ≤ hi) (ht : 0 ≤ t) (ht2 : t ≤ 1) :
    lo ≤ a + (b - a) * t ∧ a + (b - a) * t ≤ hi := by
  constructor <;> nlinarith

/-- The target strength written by a scroll handler, `min(1, |delta|/scale) *
maxA`, lies in `[0, maxA]` for any positive scale constant. -/
theorem speedTarget_bounds (delta scale maxA : ℚ) (hs : 0 < scale) (hA : 0 ≤ maxA) :
    0 ≤ min 1 (|delta| / scale) * maxA ∧ min 1 (|delta| / scale) * maxA ≤ maxA := by
  have h0 : 0 ≤ min 1 (|delta| / scale) :=
    le_min (by norm_num) (div_nonneg (abs_nonneg _) hs.le)
  have h1 : min 1 (|delta| / scale) ≤ 1 := min_le_left _ _
  exact ⟨mul_nonneg h0 hA, by nlinarith⟩

/-- A variant-1 scroll event preserves the strength invariant: the new target
is `min(1, |delta|/scale) * maxA ∈ [0, maxA]`. -/
theorem handleScroll1_inv (mobile : Bool) (maxA : ℚ) (s : AberrationState) (y : ℚ)
    (hA : 0 ≤ maxA) (h : StrengthInv maxA s) :
    StrengthInv maxA (handleScroll1 mobile maxA s y) := by
  obtain ⟨h1, h2, h3, h4⟩ := h
  simp only [handleScroll1, StrengthInv]
  split_ifs with hth hm
  · exact ⟨h1, h2, h3, h4⟩
  · exact ⟨h1, h2, (speedTarget_bounds (y - s.lastScrollY) 12 maxA (by norm_num) hA).1,
      (speedTarget_bounds (y - s.lastScrollY) 12 maxA (by norm_num) hA).2⟩
  · exact ⟨h1, h2, (speedTarget_bounds (y - s.lastScrollY) 25 maxA (by norm_num) hA).1,
      (speedTarget_bounds (y - s.lastScrollY) 25 maxA (by norm_num) hA).2⟩

/-- The debounce expiry preserves the strength invariant. -/
theorem timerFire1_inv (maxA : ℚ) (s : AberrationState) (hA : 0 ≤ maxA)
    (h : StrengthInv maxA s) : StrengthInv maxA (timerFire1 s) :=
  ⟨h.1, h.2.1, le_refl 0, hA⟩

/-- A variant-1 frame step with damping factor in (0,1) preserves the strength
invariant. -/
theorem frameStep1_inv (mobile : Bool) (maxA d ddir : ℚ) (s : AberrationState)
    (hA : 0 ≤ maxA) (hd0 : 0 < d) (hd1 : d < 1) (h : StrengthInv maxA s) :
    StrengthInv maxA (frameStep1 mobile d ddir s) := by
  obtain ⟨h1, h2, h3, h4⟩ := h
  by_cases hf : s.forceReset = true
  · simp only [frameStep1, lerp, StrengthInv]
    rw [if_pos hf]
    rw [apply_ite AberrationState.currentAberrationStrength,
        apply_ite AberrationState.targetAberrationStrength]
    dsimp only
    rw [ite_self]
    set rd := (if mobile then (2:ℚ)/5 else 1/4) with hrddef
    have hrd0 : (0:ℚ) ≤ rd := by rw [hrddef]; split_ifs <;> norm_num
    have hrd1 : rd ≤ 1 := by rw [hrddef]; split_ifs <;> norm_num
    have hb := lerp_bounds s.currentAberrationStrength 0 rd
      0 maxA h1 h2 (le_refl 0) hA hrd0 hrd1
    split_ifs with hsnap
    · exact ⟨le_refl 0, hA, h3, h4⟩
    · exact ⟨hb.1, hb.2, h3, h4⟩
  · simp only [frameStep1, lerp, StrengthInv]
    rw [if_neg hf]
    dsimp only
    have hb := lerp_bounds s.currentAberrationStrength s.targetAberrationStrength d
      0 maxA h1 h2 h3 h4 hd0.le hd1.le
    split_ifs with hs
    · exact ⟨le_refl 0, hA, h3, h4⟩
    · exact ⟨hb.1, hb.2, h3, h4⟩

/-- Running any sequence of well-formed events preserves the strength
invariant. -/
theorem run1_inv (mobile : Bool) (maxA : ℚ) (hA : 0 ≤ maxA)
    (s : AberrationState) (es : List Event1) (hs : StrengthInv maxA s)
    (hes : ∀ e ∈ es, EventOk e) : StrengthInv maxA (run1 mobile maxA s es) := by
  induction es generalizing s with
  | nil => exact hs
  | cons e es ih =>
    rw [run1, List.foldl_cons]
    have hstep : StrengthInv maxA (step1 mobile maxA s e) := by
      cases e with
      | scroll y => exact handleScroll1_inv mobile maxA s y hA hs
      | timerFire => exact timerFire1_inv maxA s hA hs
      | frame d ddir =>
        have hok : EventOk (Event1.frame d ddir) := hes _ (List.mem_cons_self _ _)
        exact frameStep1_inv mobile maxA d ddir s hA hok.1 hok.2 hs
    exact ih (step1 mobile maxA s e) hstep (fun e' he' => hes e' (List.mem_cons_of_mem _ he'))

/-- C1: starting from strength 0, after any sequence of scroll events, timer
expiries and frame steps (each frame's lerp damping factor in (0,1)), the
current aberration strength stays within [0, maxAberration]. -/
theorem C1_strength_in_range (mobile : Bool) (maxA : ℚ) (hA : 0 ≤ maxA) (y0 : ℚ)
    (es : List Event1) (hes : ∀ e ∈ es, EventOk e) :
    0 ≤ (run1 mobile maxA (initState y0) es).currentAberrationStrength ∧
    (run1 mobile maxA (initState y0) es).currentAberrationStrength ≤ maxA := by
  have h := run1_inv mobile maxA hA (initState y0) es ⟨le_refl 0, hA, le_refl 0, hA⟩ hes
  exact ⟨h.1, h.2.1⟩

/-- C1 witness: a fast scroll, two frames, the debounce expiry and one more
frame keep the strength within [0, 2]. -/
theorem C1_strength_in_range_witness :
    0 ≤ (run1 false 2 (initState 0)
      [Event1.scroll 40, Event1.frame (3/20) (3/20), Event1.frame (1/4) (1/4),
       Event1.timerFire, Event1.frame (3/20) (3/20)]).currentAberrationStrength ∧
    (run1 false 2 (initState 0)
      [Event1.scroll 40, Event1.frame (3/20) (3/20), Event1.frame (1/4) (1/4),
       Event1.timerFire, Event1.frame (3/20) (3/20)]).currentAberrationStrength ≤ 2 := by
  apply C1_strength_in_range false 2 (by norm_num) 0
  intro e he
  fin_cases he <;> norm_num [EventOk]

/-- C8: the DOM-rect-to-world mapping is affine increasing in the horizontal
screen coordinate and affine decreasing in the vertical one (the y axis is
inverted), and composing it with the spec's inverse transform (scale by the
window/viewport ratio, re-invert y) recovers the rectangle's on-screen center
exactly. -/
theorem C8_coordinate_roundtrip (innerW vpW innerH vpH left top width height : ℚ)
    (hiW : 0 < innerW) (hvW : 0 < vpW) (hiH : 0 < innerH) (hvH : 0 < vpH) :
    screenCenterX innerW vpW (worldX innerW vpW left width) = left + width / 2 ∧
    screenCenterY innerH vpH (worldY innerH vpH top height) = top + height / 2 ∧
    (∀ l1 l2 : ℚ, l1 < l2 → worldX innerW vpW l1 width < worldX innerW vpW l2 width) ∧
    (∀ t1 t2 : ℚ, t1 < t2 → worldY innerH vpH t2 height < worldY innerH vpH t1 height) := by
  refine ⟨?_, ?_, ?_, ?_⟩
  · unfold screenCenterX worldX
    field_simp
    ring
  · unfold screenCenterY worldY
    field_simp
    ring
  · intro l1 l2 hl
    unfold worldX
    have h1 : (l1 + width / 2) / innerW < (l2 + width / 2) / innerW :=
      (div_lt_div_iff_of_pos_right hiW).mpr (by linarith)
    have h2 := mul_lt_mul_of_pos_right h1 hvW
    linarith
  · intro t1 t2 ht
    unfold worldY
    have h1 : (t1 + height / 2) / innerH < (t2 + height / 2) / innerH :=
      (div_lt_div_iff_of_pos_right hiH).mpr (by linarith)
    have h2 := mul_lt_mul_of_pos_right h1 hvH
    linarith

/-- C8 witness: a 200x100 rectangle at (300, 500) in a 1000x800 window with a
10x8 world viewport round-trips to its on-screen center (400, 550). -/
theorem C8_coordinate_roundtrip_witness :
    screenCenterX 1000 10 (worldX 1000 10 300 200) = 300 + 200 / 2 ∧
    screenCenterY 800 8 (worldY 800 8 500 100) = 500 + 100 / 2 := by
  have h := C8_coordinate_roundtrip 1000 10 800 8 300 500 200 100
    (by norm_num) (by norm_num) (by norm_num) (by norm_num)
  exact ⟨h.1, h.2.1⟩

/-- C7 counterexample: in the `ShaderEffectOverlay` variant, an image whose
inline opacity was "1" before discovery still has opacity "0" after the
component cleanup runs, so its original opacity is not restored on dispose. -/
theorem C7_counterexample :
    exampleOverlay.imgs.map DomImage.opacity = ["1"] ∧
    (overlayCleanup (overlaySetup exampleOverlay)).imgs.map DomImage.opacity = ["0"] ∧
    (overlayCleanup (overlaySetup exampleOverlay)).imgs.map DomImage.opacity ≠
      exampleOverlay.imgs.map DomImage.opacity :=
  ⟨rfl, rfl, by decide⟩

/-- C7 (amended): on dispose, the `ChromaticImages` variant clears every
discovered image's inline opacity, removes every identifier and disconnects
the observer, while the `ShaderEffectOverlay` variant only detaches its
resize listener and leaves every discovered image's inline opacity at "0". -/
theorem C7_cleanup_amended (cs : ChromaticState) (os : OverlayState) :
    (chromaticCleanup (chromaticSetup cs)).imgs =
      cs.imgs.map (fun img => { img with opacity := "", chromaticId := none }) ∧
    (chromaticCleanup (chromaticSetup cs)).observerConnected = false ∧
    (overlayCleanup (overlaySetup os)).resizeListenerAttached = false ∧
    (overlayCleanup (overlaySetup os)).imgs =
      os.imgs.map (fun img => { img with opacity := "0" }) := by
  refine ⟨?_, rfl, rfl, ?_⟩
  · simp [chromaticCleanup, chromaticSetup, List.map_map, Function.comp_def,
      List.enum_length]
  · simp [overlayCleanup, overlaySetup]

/-- Closed form of one smoothing step: the gap to the target is scaled by
`(1-k)^(delta*60)`. -/
theorem smoothStep_closed (k t c d : ℝ) :
    smoothStep k t c d = t + (c - t) * (1 - k) ^ (d * 60) := by
  unfold smoothStep scaledDamping
  ring

/-- Two consecutive smoothing steps of durations d1 and d2 equal one step of
duration d1 + d2. -/
theorem smoothStep_add (k t c d1 d2 : ℝ) (hk : k < 1) :
    smoothStep k t (smoothStep k t c d1) d2 = smoothStep k t c (d1 + d2) := by
  have hb : (0:ℝ) < 1 - k := by linarith
  rw [smoothStep_closed, smoothStep_closed, smoothStep_closed]
  have hmul : (1 - k) ^ ((d1 + d2) * 60) = (1 - k) ^ (d1 * 60) * (1 - k) ^ (d2 * 60) := by
    rw [← Real.rpow_add hb]
    congr 1
    ring
  rw [hmul]
  ring

/-- Folding the smoothing step over any list of frame durations equals one
step over their sum. -/
theorem smoothStep_foldl (k t : ℝ) (hk : k < 1) :
    ∀ (ds : List ℝ) (c : ℝ), ds.foldl (smoothStep k t) c = smoothStep k t c ds.sum := by
  intro ds
  induction ds with
  | nil =>
    intro c
    rw [List.foldl_nil, List.sum_nil, smoothStep_closed, zero_mul, Real.rpow_zero]
    ring
  | cons d ds ih =>
    intro c
    rw [List.foldl_cons, ih, List.sum_cons]
    exact smoothStep_add k t c d ds.sum hk

/-- Closed form of n iterated smoothing steps of a fixed duration. -/
theorem smoothStep_iterate (k t c d : ℝ) :
    ∀ n : ℕ, (fun x => smoothStep k t x d)^[n] c = t + (c - t) * ((1 - k) ^ (d * 60)) ^ n := by
  intro n
  induction n with
  | zero =>
    rw [Function.iterate_zero_apply, pow_zero]
    ring
  | succ n ih =>
    rw [Function.iterate_succ_apply', ih]
    simp only [smoothStep_closed]
    ring

/-- C2: the per-frame smoothing step with time-scaled damping
`1 - (1-k)^(delta*60)` is partition-invariant: one step over elapsed time T
equals the composition of steps over any list of durations summing to T; and
iterating the step at any fixed positive frame duration converges the current
value to the target. -/
theorem C2_time_scale_invariance (k t c : ℝ) (hk0 : 0 < k) (hk1 : k < 1) :
    (∀ d1 d2 : ℝ, smoothStep k t (smoothStep k t c d1) d2 = smoothStep k t c (d1 + d2)) ∧
    (∀ ds : List ℝ, ds.foldl (smoothStep k t) c = smoothStep k t c ds.sum) ∧
    (∀ d : ℝ, 0 < d →
      Filter.Tendsto (fun n => (fun x => smoothStep k t x d)^[n] c) Filter.atTop (nhds t)) := by
  refine ⟨fun d1 d2 => smoothStep_add k t c d1 d2 hk1,
    fun ds => smoothStep_foldl k t hk1 ds c, fun d hd => ?_⟩
  have hb0 : (0:ℝ) < 1 - k := by linarith
  have hb1 : (1:ℝ) - k < 1 := by linarith
  have hp0 : 0 < (1 - k) ^ (d * 60) := Real.rpow_pos_of_pos hb0 _
  have hp1 : (1 - k) ^ (d * 60) < 1 := Real.rpow_lt_one hb0.le hb1 (by positivity)
  have hgeo : Filter.Tendsto (fun n : ℕ => ((1 - k) ^ (d * 60)) ^ n) Filter.atTop (nhds 0) :=
    tendsto_pow_atTop_nhds_zero_of_lt_one hp0.le hp1
  have hlim : Filter.Tendsto (fun n : ℕ => t + (c - t) * ((1 - k) ^ (d * 60)) ^ n)
      Filter.atTop (nhds (t + (c - t) * 0)) :=
    (Filter.Tendsto.const_mul _ hgeo).const_add _
  simp only [mul_zero, add_zero] at hlim
  have heq : (fun n : ℕ => (fun x => smoothStep k t x d)^[n] c) =
      fun n : ℕ => t + (c - t) * ((1 - k) ^ (d * 60)) ^ n := by
    funext n
    exact smoothStep_iterate k t c d n
  rw [heq]
  exact hlim

/-- C2 witness: at k = 0.15, target 1, start 0, two 1/60s steps equal one
1/30s step, and iterating 1/60s steps converges to the target. -/
theorem C2_time_scale_invariance_witness :
    smoothStep (3/20) 1 (smoothStep (3/20) 1 0 (1/60)) (1/60) =
      smoothStep (3/20) 1 0 (1/60 + 1/60) ∧
    Filter.Tendsto (fun n => (fun x => smoothStep (3/20) 1 x (1/60))^[n] 0)
      Filter.atTop (nhds 1) := by
  have h := C2_time_scale_invariance (3/20) 1 0 (by norm_num) (by norm_num)
  exact ⟨h.1 (1/60) (1/60), h.2.2 (1/60) (by norm_num)⟩
